import Mathlib

/-!
Shallow embedding of the zmr-discord-notify server (src/server/webapp.py and
src/server/client.py), with theorems checking the natural-language
specification against the code.

Conventions of the embedding:
- Python values arriving from JSON are modelled by `JVal`.
- Fallible Python code is modelled with explicit outcome types; an uncaught
  Python exception is an explicit constructor, never an implicit crash.
- Platform calls (Discord sends, role grants and revokes) are modelled by
  boolean outcome parameters: `true` means the awaited call returns normally,
  `false` means it raises `discord.DiscordException`.
- Counters record how many times each platform side effect was attempted.
-/

namespace ZmrNotify

/-- A JSON-decoded Python value, as far as the server inspects it. -/
inductive JVal where
  | jstr (s : String)
  | jint (n : Int)
  deriving DecidableEq, Repr

/-- Python `str(x)` on the values `JVal` models: a string is returned
unchanged, an int is rendered in decimal. -/
def pyStr : JVal → String
  | .jstr s => s
  | .jint n => toString n

/-- Python `int(x)` on the values `JVal` models: an int is returned
unchanged, a string is parsed as a decimal integer after stripping
surrounding whitespace, raising `ValueError` (modelled as `.error`) when the
parse fails. -/
def pyInt : JVal → Except String Int
  | .jint n => .ok n
  | .jstr s =>
    match s.trim.toInt? with
    | some n => .ok n
    | none => .error "ValueError: invalid literal for int"

/-- Python `data[key]` on a dict: the bound value, or `KeyError` (modelled as
`.error`) when the key is absent. The dict is an association list. -/
def dictGet (data : List (String × JVal)) (key : String) : Except String JVal :=
  match data.lookup key with
  | some v => .ok v
  | none => .error ("KeyError: " ++ key)

/-- `NotifyPayload` from webapp.py. The `ip` field keeps the raw JSON value,
because `NotifyPayload.construct` assigns `data[join_ip]` without any
coercion; every other field is coerced by `str` or `int`. -/
structure NotifyPayload where
  token : String
  hostname : String
  ip : JVal
  num_players : Int
  max_players : Int
  player_name : String
  deriving DecidableEq, Repr

/-- `NotifyPayload.construct` from webapp.py: reads the six required keys in
source order, coercing `token`, `hostname`, `player_name` with `str`,
`num_players`, `max_players` with `int`, and storing `join_ip` raw. Any
`KeyError` or `ValueError` escapes as `.error`. -/
def construct (data : List (String × JVal)) : Except String NotifyPayload :=
  match dictGet data "token" with
  | .error e => .error e
  | .ok vtoken =>
  match dictGet data "hostname" with
  | .error e => .error e
  | .ok vhostname =>
  match dictGet data "join_ip" with
  | .error e => .error e
  | .ok vip =>
  match dictGet data "num_players" with
  | .error e => .error e
  | .ok vnum =>
  match pyInt vnum with
  | .error e => .error e
  | .ok num =>
  match dictGet data "max_players" with
  | .error e => .error e
  | .ok vmax =>
  match pyInt vmax with
  | .error e => .error e
  | .ok maxp =>
  match dictGet data "player_name" with
  | .error e => .error e
  | .ok vname =>
    .ok { token := pyStr vtoken, hostname := pyStr vhostname, ip := vip,
          num_players := num, max_players := maxp,
          player_name := pyStr vname }

/-- Outcome of one call of `NotifyClient._on_notify` (client.py): a normal
boolean return, the `assert data.token in self._valid_tokens` failing
(`AssertionError`), or the `return success` line raising
`UnboundLocalError` because `success` was never assigned. -/
inductive NotifyResult where
  | ret (b : Bool)
  | assertFail
  | unboundLocal
  deriving DecidableEq, Repr

/-- `NotifyClient._on_notify` from client.py. `ready` models
`self.is_ready() and self._init_done`; `testPost` models
`self._config.test_post`; `validTokens` models `self._valid_tokens`;
`sendOk` tells whether `self._my_channel.send` returns normally or raises
`discord.DiscordException`. The second component counts attempted channel
sends. When the send raises, the handler logs the error, but the local
`success` was never assigned, so the final `return success` raises
`UnboundLocalError`. -/
def onNotify (ready testPost : Bool) (validTokens : List String)
    (sendOk : Bool) (data : NotifyPayload) : NotifyResult × Nat :=
  if ready = false then
    (.ret false, 0)
  else if testPost = true then
    (.ret true, 0)
  else if data.token ∉ validTokens then
    (.assertFail, 0)
  else if sendOk = true then
    (.ret true, 1)
  else
    (.unboundLocal, 1)

/-- The body of an inbound POST request, as the handler sees it:
`request.json()` either raises (`notJson`) or yields a decoded dict. -/
inductive ReqBody where
  | notJson
  | json (data : List (String × JVal))
  deriving DecidableEq, Repr

/-- Observable outcome of `NotifyWebApp._handle_webrequest` (webapp.py):
the HTTP status, the `success` flag of the JSON response body, and the list
of dispatcher invocations made while handling the request (each entry is the
outcome of one `self.callback(data)` call). -/
structure HttpOutcome where
  status : Nat
  success : Bool
  dispatched : List NotifyResult
  deriving DecidableEq, Repr

/-- `_send_response` from webapp.py: status 200 when `success` is true, else
400; response body is the JSON object with the single key `success`. -/
def sendResponse (success : Bool) (dispatched : List NotifyResult) : HttpOutcome :=
  { status := if success then 200 else 400, success := success,
    dispatched := dispatched }

/-- `NotifyWebApp._handle_webrequest` from webapp.py, parameterised by the
dispatcher callback `cb` (in deployment, `NotifyClient._on_notify`).
If `request.json()` raises or `NotifyPayload.construct` raises, `data`
stays `None` and the handler responds failure without invoking `cb`.
Otherwise it invokes `cb` exactly once; `success` starts `False` and is
updated only when `cb` returns normally, a raised exception being swallowed
by the bare `except`. -/
def handleWebrequest (cb : NotifyPayload → NotifyResult × Nat)
    (body : ReqBody) : HttpOutcome :=
  match body with
  | .notJson => sendResponse false []
  | .json d =>
    match construct d with
    | .error _ => sendResponse false []
    | .ok payload =>
      let r := (cb payload).1
      let success := match r with
        | .ret b => b
        | _ => false
      sendResponse success [r]

/-- `_get_valid_tokens` from client.py works on the characters of the file,
with its whitespace notion: Python `str.strip` with no argument removes
space, tab, newline, carriage return, vertical tab and form feed. -/
def pyIsSpace (c : Char) : Bool :=
  c = ' ' ∨ c = '\t' ∨ c = '\n' ∨ c = '\r' ∨ c = '\x0b' ∨ c = '\x0c'

/-- Python `str.strip()`: drop leading and trailing whitespace characters. -/
def pyStrip (line : List Char) : List Char :=
  ((line.dropWhile pyIsSpace).reverse.dropWhile pyIsSpace).reverse

/-- Python `line.index(c)`: index of the first occurrence, `none` standing
for the `ValueError` branch. -/
def firstIndexOf (c : Char) : List Char → Option Nat
  | [] => none
  | x :: xs => if x = c then some 0 else (firstIndexOf c xs).map (· + 1)

/-- One iteration of the `_get_valid_tokens` loop body on one line: `none`
when the loop `continue`s (full-line comment, or empty after stripping),
otherwise the token appended for this line. A `;` at index 0 skips the
line, a `;` later truncates the line before it, then the line is stripped
and dropped when empty. -/
def processLine (line : List Char) : Option (List Char) :=
  let afterComment : Option (List Char) :=
    match firstIndexOf ';' line with
    | some 0 => none
    | some i => some (line.take i)
    | none => some line
  match afterComment with
  | none => none
  | some l =>
    let token := pyStrip l
    if token = [] then none else some token

/-- Python `fp.readlines()` on the text `s`: split after each newline,
keeping the newline at the end of each line; a final fragment without a
newline is its own line. -/
def readlinesAux : List Char → List Char → List (List Char)
  | [], acc => if acc = [] then [] else [acc.reverse]
  | c :: cs, acc =>
    if c = '\n' then (acc.reverse ++ ['\n']) :: readlinesAux cs []
    else readlinesAux cs (c :: acc)

/-- Python `fp.readlines()` on a whole file given as characters. -/
def readlines (s : List Char) : List (List Char) :=
  readlinesAux s []

/-- `_get_valid_tokens` from client.py, on the file contents: process each
line in order, collecting the surviving tokens. -/
def getValidTokens (s : List Char) : List (List Char) :=
  (readlines s).filterMap processLine

/-- The user-visible replies the role commands can attempt
(client.py `_add_ping_role`, `_remove_ping_role`). -/
inductive Reply where
  | alreadyHave
  | addConfirm
  | addFailNotice
  | dontHave
  | removeConfirm
  | removeFailNotice
  deriving DecidableEq, Repr

/-- Effect of one role command invocation: the role ids of the member
afterwards, the number of attempted grant and revoke platform calls, the
replies attempted in order, and the replies whose platform send returned
normally. -/
structure CmdEffect where
  roles : List Nat
  grants : Nat
  revokes : Nat
  attempted : List Reply
  delivered : List Reply
  deriving DecidableEq, Repr

/-- Outcomes of the platform calls one command invocation can make: whether
`member.add_roles` and `member.remove_roles` return normally, and whether
each of the channel sends returns normally (`true`) or raises
`discord.DiscordException` (`false`). -/
structure PlatformEnv where
  grantOk : Bool
  revokeOk : Bool
  alreadyMsgOk : Bool
  confirmOk : Bool
  failNoticeOk : Bool
  deriving DecidableEq, Repr

/-- `NotifyClient._add_ping_role` from client.py. If the member already
holds the ping role, reply via `_channel_msg` (which swallows a send
failure) and return with no mutation. Otherwise attempt the grant inside a
`try`: if the grant raises, or the grant succeeds but the confirmation send
raises, the `except` block attempts a failure-notice send whose own failure
is swallowed. Roles change exactly when the grant call returns normally. -/
def addPingRole (env : PlatformEnv) (pingRole : Nat) (roles : List Nat) : CmdEffect :=
  if pingRole ∈ roles then
    { roles := roles, grants := 0, revokes := 0,
      attempted := [.alreadyHave],
      delivered := if env.alreadyMsgOk then [.alreadyHave] else [] }
  else if env.grantOk = false then
    { roles := roles, grants := 1, revokes := 0,
      attempted := [.addFailNotice],
      delivered := if env.failNoticeOk then [.addFailNotice] else [] }
  else if env.confirmOk = false then
    { roles := pingRole :: roles, grants := 1, revokes := 0,
      attempted := [.addConfirm, .addFailNotice],
      delivered := if env.failNoticeOk then [.addFailNotice] else [] }
  else
    { roles := pingRole :: roles, grants := 1, revokes := 0,
      attempted := [.addConfirm], delivered := [.addConfirm] }

/-- `NotifyClient._remove_ping_role` from client.py, the mirror of
`addPingRole` with revoke semantics: `member.remove_roles` removes the ping
role when it returns normally. -/
def removePingRole (env : PlatformEnv) (pingRole : Nat) (roles : List Nat) : CmdEffect :=
  if pingRole ∉ roles then
    { roles := roles, grants := 0, revokes := 0,
      attempted := [.dontHave],
      delivered := if env.alreadyMsgOk then [.dontHave] else [] }
  else if env.revokeOk = false then
    { roles := roles, grants := 0, revokes := 1,
      attempted := [.removeFailNotice],
      delivered := if env.failNoticeOk then [.removeFailNotice] else [] }
  else if env.confirmOk = false then
    { roles := roles.filter (fun r => r ≠ pingRole), grants := 0, revokes := 1,
      attempted := [.removeConfirm, .removeFailNotice],
      delivered := if env.failNoticeOk then [.removeFailNotice] else [] }
  else
    { roles := roles.filter (fun r => r ≠ pingRole), grants := 0, revokes := 1,
      attempted := [.removeConfirm], delivered := [.removeConfirm] }

/-- A command invocation that does nothing, used for the fall-through of the
two `if command ==` tests in `on_message`. -/
def skipEffect (roles : List Nat) : CmdEffect :=
  { roles := roles, grants := 0, revokes := 0, attempted := [], delivered := [] }

/-- Sequencing of two command effects on the same member, mirroring the two
consecutive `if` statements of `on_message`. -/
def seqEffect (e1 : CmdEffect) (e2 : CmdEffect) : CmdEffect :=
  { roles := e2.roles, grants := e1.grants + e2.grants,
    revokes := e1.revokes + e2.revokes,
    attempted := e1.attempted ++ e2.attempted,
    delivered := e1.delivered ++ e2.delivered }

/-- An inbound chat message, with the fields `on_message` inspects:
its text, the author id, the channel id, and whether the channel is a
`discord.DMChannel`. -/
structure Message where
  content : String
  authorId : Nat
  channelId : Nat
  isDM : Bool
  deriving DecidableEq, Repr

/-- The session context `on_message` reads: readiness
(`self.is_ready() and self._init_done`), the bot user id, the configured
channel id and the configured ping role id. -/
structure MsgCtx where
  ready : Bool
  selfId : Nat
  cfgChannelId : Nat
  pingRole : Nat
  deriving DecidableEq, Repr

/-- `NotifyClient.on_message` from client.py. `member` models
`self._my_guild.get_member(message.author.id)`: `none` when the author is
not a member of the configured guild, otherwise the role ids the member
holds. The result is `none` when the handler returns before the command
dispatch, and `some` of the combined effect of the two command `if`s
otherwise (an unknown command leaves both untaken, so the effect is empty). -/
def onMessage (ctx : MsgCtx) (env : PlatformEnv) (member : Option (List Nat))
    (msg : Message) : Option CmdEffect :=
  if ctx.ready = false then none
  else if msg.content = "" then none
  else if msg.content.front ≠ '!' then none
  else if msg.authorId = ctx.selfId then none
  else if msg.channelId ≠ ctx.cfgChannelId ∧ msg.isDM = false then none
  else
    match member with
    | none => none
    | some roles =>
      let command := msg.content.drop 1
      let e1 := if command = "add" then addPingRole env ctx.pingRole roles
                else skipEffect roles
      let e2 := if command = "remove" then removePingRole env ctx.pingRole e1.roles
                else skipEffect e1.roles
      some (seqEffect e1 e2)

/-- State of the HTTP listener after `NotifyWebApp._init_webapp`
(webapp.py): whether `self._site` was assigned, and whether the assigned
site was started. `none` models `self._site` still `None`. -/
structure InitOutcome where
  site : Option Bool
  loggedInitError : Bool
  raisedToCaller : Bool
  deriving DecidableEq, Repr

/-- The `try` body of `NotifyWebApp._init_webapp` (webapp.py): `setupOk`
tells whether `await runner.setup()` returns normally, `bindOk` whether
`await self._site.start()` returns normally (binding the port). Returns the
`self._site` field at the point where the body finishes or raises, plus the
raised exception when there is one. The `self._site = web.TCPSite(...)`
assignment happens before `self._site.start()`, so a bind failure leaves
the site assigned but not started. -/
def initWebappBody (setupOk bindOk : Bool) : Option Bool × Option String :=
  if setupOk = false then (none, some "runner setup raised")
  else if bindOk = false then (some false, some "site start raised")
  else (some true, none)

/-- `NotifyWebApp._init_webapp` from webapp.py, as called by
`NotifyWebApp.start`: any exception of the `try` body is caught by
`except Exception`, logged and dropped, so `start` reports nothing to its
caller whatever happened. -/
def initWebapp (setupOk bindOk : Bool) : InitOutcome :=
  match initWebappBody setupOk bindOk with
  | (site, some _) =>
    { site := site, loggedInitError := true, raisedToCaller := false }
  | (site, none) =>
    { site := site, loggedInitError := false, raisedToCaller := false }

/-- A concrete payload used by the witnesses. -/
def samplePayload : NotifyPayload :=
  { token := "tok", hostname := "h", ip := .jstr "1.2.3.4",
    num_players := 1, max_players := 2, player_name := "p" }

/-- A concrete decoded request dict that constructs `samplePayload`. -/
def sampleDict : List (String × JVal) :=
  [("token", .jstr "tok"), ("hostname", .jstr "h"),
   ("join_ip", .jstr "1.2.3.4"), ("num_players", .jint 1),
   ("max_players", .jint 2), ("player_name", .jstr "p")]

/-- C1: when the session is not ready, notify returns false and attempts no
platform send; and whenever a send is attempted, the session was ready,
test mode was off, and the token of the event had passed the allow-list
assertion before the send. -/
theorem C1_notify_gating (ready testPost : Bool) (validTokens : List String)
    (sendOk : Bool) (data : NotifyPayload) :
    (ready = false →
      onNotify ready testPost validTokens sendOk data = (.ret false, 0))
    ∧ (0 < (onNotify ready testPost validTokens sendOk data).2 →
        ready = true ∧ testPost = false ∧ data.token ∈ validTokens) := by
  constructor
  · intro h
    simp [onNotify, h]
  · intro h
    cases hr : ready with
    | false => rw [onNotify] at h; simp [hr] at h
    | true =>
      cases ht : testPost with
      | true => rw [onNotify] at h; simp [hr, ht] at h
      | false =>
        by_cases hm : data.token ∈ validTokens
        · exact ⟨rfl, rfl, hm⟩
        · rw [onNotify] at h; simp [hr, ht, hm] at h

/-- C1 witness: at a concrete not-ready call, notify returns false with no
send attempt. -/
theorem C1_notify_gating_witness :
    onNotify false false ["tok"] true samplePayload = (.ret false, 0) :=
  (C1_notify_gating false false ["tok"] true samplePayload).1 rfl

/-- C2: a request that parses to a valid event but carries a token outside
the allow-list makes the dispatcher raise the invalid-token assertion, so
its dispatcher record is the singleton `assertFail`; a malformed-payload
request (non-JSON body, or a body `construct` rejects) never invokes the
dispatcher, so its record is empty; the two records differ, hence the
outcomes are distinguishable at the dispatcher level (the HTTP status and
body coincide at 400 and success false). -/
theorem C2_invalid_token_distinct (tokens : List String) (sendOk : Bool)
    (d : List (String × JVal)) (p : NotifyPayload)
    (hparse : construct d = .ok p) (htok : p.token ∉ tokens) :
    (handleWebrequest (onNotify true false tokens sendOk) (.json d)).dispatched
      = [NotifyResult.assertFail]
    ∧ (∀ cb, (handleWebrequest cb ReqBody.notJson).dispatched = [])
    ∧ (∀ cb d' e, construct d' = .error e →
        (handleWebrequest cb (ReqBody.json d')).dispatched = [])
    ∧ [NotifyResult.assertFail] ≠ ([] : List NotifyResult) := by
  refine ⟨?_, ?_, ?_, by simp⟩
  · simp [handleWebrequest, hparse, onNotify, htok, sendResponse]
  · intro cb
    simp [handleWebrequest, sendResponse]
  · intro cb d' e he
    simp [handleWebrequest, he, sendResponse]

/-- C2 witness: at the concrete dict with token `tok` and an empty
allow-list, the dispatcher record is the invalid-token assertion failure. -/
theorem C2_invalid_token_distinct_witness :
    (handleWebrequest (onNotify true false [] true) (.json sampleDict)).dispatched
      = [NotifyResult.assertFail] :=
  (C2_invalid_token_distinct [] true sampleDict samplePayload rfl
    (by decide)).1

/-- C3: the claim says a platform send failure makes notify return false,
but the code only assigns the local `success` inside the `try`: when the
send raises `DiscordException`, the handler logs and then `return success`
raises `UnboundLocalError` instead of returning false. Evaluated at a ready
session, test mode off, allow-listed token and a failing send. -/
theorem C3_send_failure_raises :
    onNotify true false ["tok"] false samplePayload
      = (NotifyResult.unboundLocal, 1)
    ∧ (onNotify true false ["tok"] false samplePayload).1
      ≠ NotifyResult.ret false := by
  decide

/-- Helper: when any of the six required keys is absent from the decoded
dict, `NotifyPayload.construct` cannot return a payload (the `KeyError`
escapes). -/
theorem construct_missing_key (d : List (String × JVal))
    (h : d.lookup "token" = none ∨ d.lookup "hostname" = none
      ∨ d.lookup "join_ip" = none ∨ d.lookup "num_players" = none
      ∨ d.lookup "max_players" = none ∨ d.lookup "player_name" = none) :
    ∀ p, construct d ≠ .ok p := by
  intro p hc
  rcases h with h | h | h | h | h | h
  · simp [construct, dictGet, h] at hc
  · cases h1 : d.lookup "token" with
    | none => simp [construct, dictGet, h1] at hc
    | some v1 => simp [construct, dictGet, h1, h] at hc
  · cases h1 : d.lookup "token" with
    | none => simp [construct, dictGet, h1] at hc
    | some v1 =>
      cases h2 : d.lookup "hostname" with
      | none => simp [construct, dictGet, h1, h2] at hc
      | some v2 => simp [construct, dictGet, h1, h2, h] at hc
  · cases h1 : d.lookup "token" with
    | none => simp [construct, dictGet, h1] at hc
    | some v1 =>
      cases h2 : d.lookup "hostname" with
      | none => simp [construct, dictGet, h1, h2] at hc
      | some v2 =>
        cases h3 : d.lookup "join_ip" with
        | none => simp [construct, dictGet, h1, h2, h3] at hc
        | some v3 => simp [construct, dictGet, h1, h2, h3, h] at hc
  · cases h1 : d.lookup "token" with
    | none => simp [construct, dictGet, h1] at hc
    | some v1 =>
      cases h2 : d.lookup "hostname" with
      | none => simp [construct, dictGet, h1, h2] at hc
      | some v2 =>
        cases h3 : d.lookup "join_ip" with
        | none => simp [construct, dictGet, h1, h2, h3] at hc
        | some v3 =>
          cases h4 : d.lookup "num_players" with
          | none => simp [construct, dictGet, h1, h2, h3, h4] at hc
          | some v4 =>
            cases h5 : pyInt v4 with
            | error e => simp [construct, dictGet, h1, h2, h3, h4, h5] at hc
            | ok n4 => simp [construct, dictGet, h1, h2, h3, h4, h5, h] at hc
  · cases h1 : d.lookup "token" with
    | none => simp [construct, dictGet, h1] at hc
    | some v1 =>
      cases h2 : d.lookup "hostname" with
      | none => simp [construct, dictGet, h1, h2] at hc
      | some v2 =>
        cases h3 : d.lookup "join_ip" with
        | none => simp [construct, dictGet, h1, h2, h3] at hc
        | some v3 =>
          cases h4 : d.lookup "num_players" with
          | none => simp [construct, dictGet, h1, h2, h3, h4] at hc
          | some v4 =>
            cases h5 : pyInt v4 with
            | error e => simp [construct, dictGet, h1, h2, h3, h4, h5] at hc
            | ok n4 =>
              cases h6 : d.lookup "max_players" with
              | none => simp [construct, dictGet, h1, h2, h3, h4, h5, h6] at hc
              | some v6 =>
                cases h7 : pyInt v6 with
                | error e =>
                  simp [construct, dictGet, h1, h2, h3, h4, h5, h6, h7] at hc
                | ok n6 =>
                  simp [construct, dictGet, h1, h2, h3, h4, h5, h6, h7, h] at hc

/-- C4: a non-JSON body, a body `construct` rejects, and in particular a
body lacking one of the six required keys each yield status 400 with
success false and never invoke the dispatcher; a body that parses invokes
the dispatcher exactly once, yielding status 200 with success true when it
returns true and status 400 with success false otherwise. -/
theorem C4_webrequest_contract (cb : NotifyPayload → NotifyResult × Nat)
    (d : List (String × JVal)) :
    handleWebrequest cb .notJson
      = { status := 400, success := false, dispatched := [] }
    ∧ (∀ e, construct d = .error e →
        handleWebrequest cb (.json d)
          = { status := 400, success := false, dispatched := [] })
    ∧ ((d.lookup "token" = none ∨ d.lookup "hostname" = none
        ∨ d.lookup "join_ip" = none ∨ d.lookup "num_players" = none
        ∨ d.lookup "max_players" = none ∨ d.lookup "player_name" = none) →
        handleWebrequest cb (.json d)
          = { status := 400, success := false, dispatched := [] })
    ∧ (∀ p, construct d = .ok p →
        (handleWebrequest cb (.json d)).dispatched = [(cb p).1]
        ∧ ((cb p).1 = .ret true →
            handleWebrequest cb (.json d)
              = { status := 200, success := true, dispatched := [(cb p).1] })
        ∧ ((cb p).1 ≠ .ret true →
            handleWebrequest cb (.json d)
              = { status := 400, success := false, dispatched := [(cb p).1] })) := by
  refine ⟨by simp [handleWebrequest, sendResponse], ?_, ?_, ?_⟩
  · intro e he
    simp [handleWebrequest, he, sendResponse]
  · intro h
    cases hc : construct d with
    | error e => simp [handleWebrequest, hc, sendResponse]
    | ok p => exact absurd hc (construct_missing_key d h p)
  · intro p hp
    refine ⟨?_, ?_, ?_⟩
    · simp [handleWebrequest, hp, sendResponse]
    · intro hr
      simp [handleWebrequest, hp, hr, sendResponse]
    · intro hr
      cases hr2 : (cb p).1 with
      | ret b =>
        cases b with
        | true => exact absurd hr2 hr
        | false => simp [handleWebrequest, hp, hr2, sendResponse]
      | assertFail => simp [handleWebrequest, hp, hr2, sendResponse]
      | unboundLocal => simp [handleWebrequest, hp, hr2, sendResponse]

/-- C4 witness: at the concrete dict and a dispatcher returning true, the
response is status 200 with success true and one dispatcher invocation. -/
theorem C4_webrequest_contract_witness :
    handleWebrequest (fun _ => (NotifyResult.ret true, 1)) (.json sampleDict)
      = { status := 200, success := true, dispatched := [NotifyResult.ret true] } :=
  ((C4_webrequest_contract (fun _ => (NotifyResult.ret true, 1)) sampleDict).2.2.2
    samplePayload rfl).2.1 rfl

/-- Helper: `firstIndexOf` finds nothing on a list without the sought
character, matching the `ValueError` branch of `line.index`. -/
theorem firstIndexOf_eq_none (c : Char) (l : List Char) (h : c ∉ l) :
    firstIndexOf c l = none := by
  induction l with
  | nil => rfl
  | cons x xs ih =>
    have hx : ¬ (x = c) := fun he => h (he ▸ List.mem_cons_self x xs)
    have h2 : c ∉ xs := fun hm => h (List.mem_cons_of_mem x hm)
    simp [firstIndexOf, hx, ih h2]

/-- Helper: `firstIndexOf` finds the first occurrence, here placed right
after a prefix free of the character. -/
theorem firstIndexOf_append (c : Char) (pre post : List Char) (h : c ∉ pre) :
    firstIndexOf c (pre ++ c :: post) = some pre.length := by
  induction pre with
  | nil => simp [firstIndexOf]
  | cons x xs ih =>
    have hx : ¬ (x = c) := fun he => h (he ▸ List.mem_cons_self x xs)
    have h2 : c ∉ xs := fun hm => h (List.mem_cons_of_mem x hm)
    simp [firstIndexOf, hx, ih h2]

/-- C5: token-file loading goes line by line: a line whose first character
is a semicolon contributes nothing; a semicolon elsewhere truncates the
line at that point, after which the line is handled like the truncated
line alone; a semicolon-free line is stripped of surrounding whitespace
and contributes nothing when the strip leaves it empty, else contributes
exactly the stripped token; and the concrete example file loads exactly
the tokens token1, token2, token3 in that order. -/
theorem C5_token_file_parsing :
    (∀ rest, processLine (';' :: rest) = none)
    ∧ (∀ pre post, ';' ∉ pre →
        processLine (pre ++ ';' :: post) = processLine pre)
    ∧ (∀ line, ';' ∉ line → pyStrip line = [] → processLine line = none)
    ∧ (∀ line, ';' ∉ line → pyStrip line ≠ [] →
        processLine line = some (pyStrip line))
    ∧ getValidTokens ("\n; Comment\ntoken1\ntoken2 ; inline\n token3\n\n".toList)
        = ["token1".toList, "token2".toList, "token3".toList] := by
  refine ⟨?_, ?_, ?_, ?_, by decide⟩
  · intro rest
    rfl
  · intro pre post h
    cases pre with
    | nil => rfl
    | cons x xs =>
      have h1 : firstIndexOf ';' (x :: (xs ++ ';' :: post)) = some (xs.length + 1) := by
        have := firstIndexOf_append ';' (x :: xs) post h
        simpa using this
      have h2 : firstIndexOf ';' (x :: xs) = none := firstIndexOf_eq_none ';' (x :: xs) h
      have h3 : List.take (xs.length + 1) (x :: (xs ++ ';' :: post)) = x :: xs := by
        have := List.take_left (x :: xs) (';' :: post)
        simpa using this
      simp [processLine, h1, h2, h3]
  · intro line h hs
    have h2 := firstIndexOf_eq_none ';' line h
    simp [processLine, h2, hs]
  · intro line h hs
    have h2 := firstIndexOf_eq_none ';' line h
    simp [processLine, h2, hs]

/-- C5 witness: a concrete inline comment is truncated at the semicolon. -/
theorem C5_token_file_parsing_witness :
    processLine (['a', 'b', ' '] ++ ';' :: ['c']) = processLine ['a', 'b', ' '] :=
  C5_token_file_parsing.2.1 ['a', 'b', ' '] ['c'] (by decide)

/-- A platform environment in which every platform call succeeds, used by
the witnesses. -/
def sampleEnv : PlatformEnv :=
  { grantOk := true, revokeOk := true, alreadyMsgOk := true,
    confirmOk := true, failNoticeOk := true }

/-- C6: a member already holding the ping role gets exactly one
already-have reply and zero grant calls, with roles unchanged; a member
without it gets exactly one grant attempt and, when the grant and the
confirmation send return normally, exactly one confirmation reply and the
role; the remove command mirrors this with revoke semantics; and when
grants succeed, issuing add twice leaves the member with the role and
issues at most one grant in total, none once the role is held. -/
theorem C6_role_commands (env : PlatformEnv) (pingRole : Nat) (roles : List Nat) :
    (pingRole ∈ roles →
      addPingRole env pingRole roles
        = { roles := roles, grants := 0, revokes := 0,
            attempted := [.alreadyHave],
            delivered := if env.alreadyMsgOk then [.alreadyHave] else [] })
    ∧ (pingRole ∉ roles →
        (addPingRole env pingRole roles).grants = 1
        ∧ (env.grantOk = true → env.confirmOk = true →
            addPingRole env pingRole roles
              = { roles := pingRole :: roles, grants := 1, revokes := 0,
                  attempted := [.addConfirm], delivered := [.addConfirm] }))
    ∧ (pingRole ∉ roles →
        removePingRole env pingRole roles
          = { roles := roles, grants := 0, revokes := 0,
              attempted := [.dontHave],
              delivered := if env.alreadyMsgOk then [.dontHave] else [] })
    ∧ (pingRole ∈ roles →
        (removePingRole env pingRole roles).revokes = 1
        ∧ (env.revokeOk = true → env.confirmOk = true →
            removePingRole env pingRole roles
              = { roles := roles.filter (fun r => r ≠ pingRole), grants := 0,
                  revokes := 1, attempted := [.removeConfirm],
                  delivered := [.removeConfirm] }))
    ∧ (env.grantOk = true →
        pingRole ∈ (addPingRole env pingRole
            (addPingRole env pingRole roles).roles).roles
        ∧ (addPingRole env pingRole roles).grants
            + (addPingRole env pingRole
                (addPingRole env pingRole roles).roles).grants ≤ 1) := by
  refine ⟨?_, ?_, ?_, ?_, ?_⟩
  · intro h
    simp [addPingRole, h]
  · intro h
    constructor
    · cases hg : env.grantOk <;> cases hc : env.confirmOk <;>
        simp [addPingRole, h, hg, hc]
    · intro hg hc
      simp [addPingRole, h, hg, hc]
  · intro h
    simp [removePingRole, h]
  · intro h
    constructor
    · cases hg : env.revokeOk <;> cases hc : env.confirmOk <;>
        simp [removePingRole, h, hg, hc]
    · intro hg hc
      simp [removePingRole, h, hg, hc]
  · intro hg
    by_cases hmem : pingRole ∈ roles
    · simp [addPingRole, hmem]
    · cases hc : env.confirmOk <;>
        simp [addPingRole, hmem, hg, hc]

/-- C6 witness: with all platform calls succeeding, adding twice starting
from no roles leaves the role held with at most one grant in total. -/
theorem C6_role_commands_witness :
    7 ∈ (addPingRole sampleEnv 7 (addPingRole sampleEnv 7 []).roles).roles
    ∧ (addPingRole sampleEnv 7 []).grants
        + (addPingRole sampleEnv 7 (addPingRole sampleEnv 7 []).roles).grants ≤ 1 :=
  (C6_role_commands sampleEnv 7 []).2.2.2.2 rfl

/-- C7: for a JSON object holding the six required keys with values of the
declared types, construction succeeds and preserves every field value
exactly; the string fields come out as the same strings, the player counts
as the same integers, and `join_ip` keeps its value (the code stores it
without coercion, which on a string input is the identity). -/
theorem C7_payload_preservation (t h i p : String) (n m : Int)
    (hn : 0 ≤ n) (hm : 0 ≤ m) :
    construct [("token", .jstr t), ("hostname", .jstr h), ("join_ip", .jstr i),
               ("num_players", .jint n), ("max_players", .jint m),
               ("player_name", .jstr p)]
      = .ok { token := t, hostname := h, ip := .jstr i,
              num_players := n, max_players := m, player_name := p } := by
  rfl

/-- C7 witness: a concrete well-typed object constructs the matching
payload. -/
theorem C7_payload_preservation_witness :
    construct [("token", .jstr "t"), ("hostname", .jstr "h"),
               ("join_ip", .jstr "i"), ("num_players", .jint 1),
               ("max_players", .jint 2), ("player_name", .jstr "p")]
      = .ok { token := "t", hostname := "h", ip := .jstr "i",
              num_players := 1, max_players := 2, player_name := "p" } :=
  C7_payload_preservation "t" "h" "i" "p" 1 2 (by decide) (by decide)

/-- C8: a message that is empty, does not start with the bang prefix, is
authored by the bot itself, arrives neither in the configured channel nor
in a direct message channel, comes from an author who is not a guild
member, or carries a command other than add and remove, produces no reply
attempt and no role mutation: the handler either returns before command
dispatch or performs the empty effect that leaves the roles unchanged. -/
theorem C8_message_guards (ctx : MsgCtx) (env : PlatformEnv)
    (member : Option (List Nat)) (msg : Message)
    (h : msg.content = "" ∨ msg.content.front ≠ '!'
      ∨ msg.authorId = ctx.selfId
      ∨ (msg.channelId ≠ ctx.cfgChannelId ∧ msg.isDM = false)
      ∨ member = none
      ∨ (msg.content.drop 1 ≠ "add" ∧ msg.content.drop 1 ≠ "remove")) :
    onMessage ctx env member msg = none
    ∨ onMessage ctx env member msg = member.map skipEffect := by
  cases hr : ctx.ready with
  | false => exact Or.inl (by simp [onMessage, hr])
  | true =>
    by_cases h1 : msg.content = ""
    · exact Or.inl (by simp [onMessage, hr, h1])
    by_cases h2 : msg.content.front = '!'
    case neg => exact Or.inl (by simp [onMessage, hr, h1, h2])
    by_cases h3 : msg.authorId = ctx.selfId
    · exact Or.inl (by simp [onMessage, hr, h1, h2, h3])
    by_cases h4 : msg.channelId ≠ ctx.cfgChannelId ∧ msg.isDM = false
    · exact Or.inl (by simp [onMessage, hr, h1, h2, h3, h4])
    cases hm : member with
    | none => exact Or.inl (by simp [onMessage, hr, h1, h2, h3, h4])
    | some roles =>
      rcases h with h | h | h | h | h | h
      · exact absurd h h1
      · exact absurd h2 h
      · exact absurd h h3
      · exact absurd h h4
      · exact absurd (hm ▸ h) (by simp)
      · refine Or.inr ?_
        simp [onMessage, hr, h1, h2, h3, h4, h.1, h.2, seqEffect, skipEffect]

/-- C8 witness: a concrete unknown command in the configured channel
produces the empty effect on a guild member. -/
theorem C8_message_guards_witness :
    onMessage { ready := true, selfId := 9, cfgChannelId := 5, pingRole := 7 }
        sampleEnv (some [3])
        { content := "!foo", authorId := 1, channelId := 5, isDM := false } = none
    ∨ onMessage { ready := true, selfId := 9, cfgChannelId := 5, pingRole := 7 }
        sampleEnv (some [3])
        { content := "!foo", authorId := 1, channelId := 5, isDM := false }
      = (some [3] : Option (List Nat)).map skipEffect :=
  C8_message_guards _ sampleEnv (some [3]) _
    (Or.inr (Or.inr (Or.inr (Or.inr (Or.inr ⟨by decide, by decide⟩)))))

/-- C9: with the test-post flag on and the session ready, notify returns
true with no send attempt whatever the allow-list, so a POST whose token
is outside the allow-list still gets status 200 with success true. -/
theorem C9_test_post_bypass (tokens : List String) (sendOk : Bool)
    (d : List (String × JVal)) (p : NotifyPayload)
    (hparse : construct d = .ok p) (htok : p.token ∉ tokens) :
    onNotify true true tokens sendOk p = (.ret true, 0)
    ∧ handleWebrequest (onNotify true true tokens sendOk) (.json d)
      = { status := 200, success := true, dispatched := [.ret true] } := by
  constructor
  · simp [onNotify]
  · simp [handleWebrequest, hparse, onNotify, sendResponse]

/-- C9 witness: the concrete dict with token outside the empty allow-list
still gets status 200 with success true in test-post mode. -/
theorem C9_test_post_bypass_witness :
    handleWebrequest (onNotify true true [] true) (.json sampleDict)
      = { status := 200, success := true, dispatched := [.ret true] } :=
  (C9_test_post_bypass [] true sampleDict samplePayload rfl (by decide)).2

/-- C10 counterexample: when the runner setup succeeds and binding the port
fails, the site handle has already been assigned to the unstarted site, so
the claim that every initialization error leaves the site handle unset is
false at this input (the error is still caught and logged, nothing reaches
the caller). -/
theorem C10_site_counterexample :
    (initWebapp true false).loggedInitError = true
    ∧ (initWebapp true false).raisedToCaller = false
    ∧ (initWebapp true false).site ≠ none := by
  decide

/-- C10 amended: starting the listener never raises to its caller and
reports nothing; every initialization error is caught and logged. A
failure of the runner setup leaves the site handle unset; a failure of the
port bind happens after the assignment, leaving the handle set to the
unstarted site; on success the site is assigned and started. -/
theorem C10_start_error_handling (setupOk bindOk : Bool) :
    (initWebapp setupOk bindOk).raisedToCaller = false
    ∧ (setupOk = false →
        initWebapp setupOk bindOk
          = { site := none, loggedInitError := true, raisedToCaller := false })
    ∧ (setupOk = true → bindOk = false →
        initWebapp setupOk bindOk
          = { site := some false, loggedInitError := true, raisedToCaller := false })
    ∧ (setupOk = true → bindOk = true →
        initWebapp setupOk bindOk
          = { site := some true, loggedInitError := false, raisedToCaller := false }) := by
  cases setupOk <;> cases bindOk <;> simp [initWebapp, initWebappBody]

/-- C10 witness: the port-bind failure case, evaluated concretely. -/
theorem C10_start_error_handling_witness :
    initWebapp true false
      = { site := some false, loggedInitError := true, raisedToCaller := false } :=
  (C10_start_error_handling true false).2.2.1 rfl rfl

end ZmrNotify
